import Mathlib

/-!
Shallow embedding of `src/5_Simulations/nbody/bodysystemcuda_impl.h`
(the `BodySystemCUDA<T>` class of the CUDA N-body sample).

Conventions of the embedding:
* machine `unsigned int` values are modelled as `Nat`; the two places where
  the source relies on 32-bit wrap-around (`m_numBodies - 1` and
  `m_numBodies - offset` in `initializeImpl`) are modelled explicitly with
  `% 2 ^ 32` arithmetic (`usub32`);
* the floating-point expression `(int)((weights[i] / total) * m_numBodies)`
  with the integer-valued weights `numSms[i] * (major >= 2 ? 4 : 1)` is
  modelled by exact rational arithmetic, i.e. `weight * numBodies / total`
  in truncating natural division (`sharesOf`).  The structural theorems
  below are stated for an arbitrary list of shares, so they do not depend
  on this modelling of the float rounding;
* device buffers are lists of scalars; a `memcpy`/`glBufferSubData` of
  `k * sizeof(T)` bytes is a `memcpyList` of `k` elements;
* CUDA / GL / kernel calls that leave the core are recorded in an `ExtCall`
  trace; `assert` is modelled by returning `none`.
-/

namespace NBody

/-- The two fields of `cudaDeviceProp` the partitioner reads
(`multiProcessorCount` and `major`, lines 88-95). -/
structure DeviceProps where
  multiProcessorCount : Nat
  major : Nat
deriving DecidableEq

/-- Line 95: `weights[i] = numSms[i] * (props.major >= 2 ? 4.f : 1.f)`.
The weight is an exact small integer, so the float holds it exactly. -/
def weight (p : DeviceProps) : Nat :=
  p.multiProcessorCount * (if 2 <= p.major then 4 else 1)

/-- Lines 96 and 105: `total += weights[i]` and
`count = (int)((weights[i] / total) * m_numBodies)`, modelled by exact
truncating division (see the file header). -/
def sharesOf (numBodies : Nat) (props : List DeviceProps) : List Nat :=
  let total := (props.map weight).sum
  props.map (fun p => weight p * numBodies / total)

/-- Lines 110-112: `round = 256; count = round * ((count + round - 1) / round)`. -/
def roundUp256 (count : Nat) : Nat :=
  256 * ((count + 255) / 256)

/-- The two partition fields of `DeviceData<T>` written by `initializeImpl`
(`offset` and `numBodies`, lines 119-120). -/
structure Slot where
  offset : Nat
  numBodies : Nat
deriving DecidableEq

/-- 32-bit unsigned subtraction `a - b` as it appears in the source at
lines 123 and 125 (`m_numBodies - 1`, `m_numBodies - offset`); both
operands are `unsigned int`, so the difference wraps modulo `2 ^ 32`. -/
def usub32 (a b : Nat) : Nat :=
  (a + 2 ^ 32 - b % 2 ^ 32) % 2 ^ 32

/-- The partition loop of `initializeImpl`, lines 103-127.  One step takes the
current `offset`, the `remaining` body budget and the truncated
proportional share of each device still to be processed:
`count` is the share rounded up to a multiple of 256 and capped at
`remaining` (lines 112-116); the slot records `(offset, count)`
(lines 119-120); the last device absorbs the leftover bodies when
`offset < m_numBodies - 1` in unsigned arithmetic (lines 123-126). -/
def partitionAux (numBodies : Nat) : Nat -> Nat -> List Nat -> List Slot
  | _, _, [] => []
  | offset, remaining, share :: rest =>
    let count := min (roundUp256 share) remaining
    let offset2 := offset + count
    let slotCount :=
      if rest.isEmpty = true ∧ offset2 < usub32 numBodies 1 then
        count + usub32 numBodies offset2
      else count
    Slot.mk offset slotCount ::
      partitionAux numBodies offset2 (remaining - count) rest

/-- Lines 100-127: the whole partition computation, starting from
`offset = 0` and `remaining = m_numBodies`. -/
def partition (numBodies : Nat) (shares : List Nat) : List Slot :=
  partitionAux numBodies 0 numBodies shares

/-- The `BodyArray` selector of `getArray` / `setArray`. -/
inductive BodyArray where
  | BODYSYSTEM_POSITION
  | BODYSYSTEM_VELOCITY
deriving DecidableEq

/-- One call leaving the core, recorded in order of issue.  Byte counts are
the exact third argument of the corresponding `memcpy`-like call, with
`sT` standing for `sizeof(T)`. -/
inductive ExtCall where
  | cudaSetDevice (dev : Nat)
  | setSofteningSquaredCall (value : Rat)
  | hostMemcpy (bytes : Nat)
  | cudaMemcpyHostToDevice (bytes : Nat)
  | cudaMemcpyDeviceToHost (bytes : Nat)
  | glBufferSubDataCall (buffer : Nat) (offset : Nat) (bytes : Nat)
  | setMapFlagsReadOnly (res : Nat)
  | mapResources (res : Nat)
  | unmapResources (res : Nat)
  | warnStderr
  | integrateCall (currentRead : Nat) (deltaTime damping : Rat)
      (numBodies numDevices blockSize : Nat) (bUsePBO : Bool)
deriving DecidableEq

/-- The fields of `BodySystemCUDA<T>` the claims touch.  Buffers are lists
of scalars (`α` stands for the 4-vector components of `T`); the pairs model
the two-element arrays `m_hPos[2]`, `dPos[2]`, `m_pbo[2]`.  `m_dPos` /
`m_dVel` stand for `m_deviceData[0].dPos` / `m_deviceData[0].dVel` (under
P2P, devices `1..` alias device 0's allocation, lines 221-223), and
`m_deviceData` keeps the partition slots of every device. -/
structure SysState (α : Type) where
  m_numBodies : Nat
  m_numDevices : Nat
  m_bInitialized : Bool
  m_bUsePBO : Bool
  m_bUseSysMem : Bool
  m_bUseP2P : Bool
  m_currentRead : Nat
  m_currentWrite : Nat
  m_blockSize : Nat
  m_devID : Nat
  m_damping : Rat
  m_hPos : List α × List α
  m_hVel : List α
  m_dPos : List α × List α
  m_dVel : List α
  m_pbo : List α × List α
  m_deviceData : List Slot
deriving DecidableEq

variable {α : Type}

/-- Read a two-element buffer array at a C index (only 0 and 1 occur). -/
def get2 (p : List α × List α) (i : Nat) : List α :=
  if i = 0 then p.1 else p.2

/-- Write a two-element buffer array at a C index. -/
def set2 (p : List α × List α) (i : Nat) (v : List α) : List α × List α :=
  if i = 0 then (v, p.2) else (p.1, v)

/-- `memcpy(dst, src, count * sizeof(α))` on buffers modelled as lists:
the first `count` elements come from `src`, the rest of `dst` is kept.
`glBufferSubData(.., 0, count * sizeof(α), src)` updates the same range. -/
def memcpyList (dst src : List α) (count : Nat) : List α :=
  src.take count ++ dst.drop count

/-- `BodySystemCUDA<T>::initializeImpl(numBodies)`, lines 70-230.  The device
properties the CUDA runtime reports are the `props` argument; `uninit` is
the arbitrary content of a fresh `cudaMalloc` allocation (the source zeroes
only the host-side buffers, lines 138-140 and 160-161, and the GL buffers
are filled from the zeroed `m_hPos[0]`, line 175).  `assert(!m_bInitialized)`
(line 73) is modelled by `none`. -/
def initializeImpl [Zero α] (uninit : α) (props : List DeviceProps)
    (numBodies : Nat) (s : SysState α) : Option (SysState α) :=
  if s.m_bInitialized then none
  else
    let zeros : List α := List.replicate (4 * numBodies) 0
    let junk : List α := List.replicate (4 * numBodies) uninit
    let slots := partition numBodies (sharesOf numBodies props)
    let s1 := { s with m_numBodies := numBodies, m_deviceData := slots }
    if s1.m_bUseSysMem then
      -- lines 132-154: pinned host allocations, mapped into every device
      some { s1 with m_hPos := (zeros, zeros), m_hVel := zeros,
                     m_dPos := (zeros, zeros), m_dVel := zeros,
                     m_bInitialized := true }
    else
      -- lines 155-227: host staging buffers m_hPos[0] / m_hVel only
      let s2 := { s1 with m_hPos := (zeros, s1.m_hPos.2), m_hVel := zeros }
      if s2.m_bUsePBO then
        -- lines 166-189: GL-owned position buffers, device-local velocity
        some { s2 with m_pbo := (zeros, zeros), m_dVel := junk,
                       m_bInitialized := true }
      else
        -- lines 191-197: plain device-local allocations
        some { s2 with m_dPos := (junk, junk), m_dVel := junk,
                       m_bInitialized := true }

/-- `BodySystemCUDA<T>::_finalize()`, lines 232-282: asserts
`m_bInitialized`, releases every buffer, clears the flag. -/
def _finalize (s : SysState α) : Option (SysState α) :=
  if s.m_bInitialized then
    some { s with m_hPos := ([], []), m_hVel := [], m_dPos := ([], []),
                  m_dVel := [], m_pbo := ([], []), m_deviceData := [],
                  m_bInitialized := false }
  else none

/-- `BodySystemCUDA<T>::setSoftening(softening)`, lines 313-327: squares the
argument and issues one `setSofteningSquared` call per device, switching
devices first when more than one is in use.  No state field changes and no
assertion guards the call. -/
def setSoftening (softening : Rat) (s : SysState α) :
    SysState α × List ExtCall :=
  let softeningSq := softening * softening
  (s, (List.range s.m_numDevices).flatMap (fun i =>
    (if 1 < s.m_numDevices then [ExtCall.cudaSetDevice i] else []) ++
      [ExtCall.setSofteningSquaredCall softeningSq]))

/-- `BodySystemCUDA<T>::setDamping(damping)`, lines 329-333: a plain field
write, with no assertion. -/
def setDamping (damping : Rat) (s : SysState α) : SysState α :=
  { s with m_damping := damping }

/-- `BodySystemCUDA<T>::update(deltaTime)`, lines 335-346: asserts
`m_bInitialized`, invokes the external integration routine once, then
swaps `m_currentRead` and `m_currentWrite`. -/
def update (deltaTime : Rat) (s : SysState α) :
    Option (SysState α × List ExtCall) :=
  if s.m_bInitialized then
    some ({ s with m_currentRead := s.m_currentWrite,
                   m_currentWrite := s.m_currentRead },
      [ExtCall.integrateCall s.m_currentRead deltaTime s.m_damping
        s.m_numBodies s.m_numDevices s.m_blockSize s.m_bUsePBO])
  else none

/-- `BodySystemCUDA<T>::getArray(array)`, lines 348-400.  Returns the host
buffer handed back to the caller, the state after the call (the host
staging buffer is overwritten in the copying modes) and the trace of
external calls.  `currentReadHost` is line 358; in sysmem mode the host
pointer is returned with no copy; otherwise a device-to-host `memcpy` of
`m_numBodies * 4 * sizeof(T)` bytes fills the staging buffer, bracketed by
a read-only map/unmap of the graphics resource when the source is a
render-shared buffer (lines 382-396). -/
def getArray (sT : Nat) (array : BodyArray) (s : SysState α) :
    Option (List α × SysState α × List ExtCall) :=
  if s.m_bInitialized then
    let currentReadHost := if s.m_bUseSysMem then s.m_currentRead else 0
    let hdata := match array with
      | BodyArray.BODYSYSTEM_POSITION => get2 s.m_hPos currentReadHost
      | BodyArray.BODYSYSTEM_VELOCITY => s.m_hVel
    let pgres : Option Nat := match array with
      | BodyArray.BODYSYSTEM_POSITION =>
          if s.m_bUsePBO then some s.m_currentRead else none
      | BodyArray.BODYSYSTEM_VELOCITY => none
    if s.m_bUseSysMem then
      some (hdata, s, [])
    else
      let ddata := match pgres with
        | some r => get2 s.m_pbo r
        | none => match array with
          | BodyArray.BODYSYSTEM_POSITION => get2 s.m_dPos s.m_currentRead
          | BodyArray.BODYSYSTEM_VELOCITY => s.m_dVel
      let hdata2 := memcpyList hdata ddata (4 * s.m_numBodies)
      let s2 := match array with
        | BodyArray.BODYSYSTEM_POSITION =>
            { s with m_hPos := set2 s.m_hPos currentReadHost hdata2 }
        | BodyArray.BODYSYSTEM_VELOCITY => { s with m_hVel := hdata2 }
      let evs := match pgres with
        | some r => [ExtCall.setMapFlagsReadOnly r, ExtCall.mapResources r,
            ExtCall.cudaMemcpyDeviceToHost (s.m_numBodies * 4 * sT),
            ExtCall.unmapResources r]
        | none => [ExtCall.cudaMemcpyDeviceToHost (s.m_numBodies * 4 * sT)]
      some (hdata2, s2, evs)
  else none

/-- `BodySystemCUDA<T>::setArray(array, data)`, lines 402-455.  Asserts
`m_bInitialized`, resets `m_currentRead = 0`, `m_currentWrite = 1`
(lines 407-408) and writes `m_numBodies * 4 * sizeof(T)` bytes of `data`
into the destination the flags select.  `obs` is the buffer size the
`glGetBufferParameteriv` query reports back (lines 420-421), an input of
the GL environment; a mismatch only prints a warning (lines 423-426). -/
def setArray (sT : Nat) (array : BodyArray) (data : List α) (obs : Nat)
    (s : SysState α) : Option (SysState α × List ExtCall) :=
  if s.m_bInitialized then
    let s1 := { s with m_currentRead := 0, m_currentWrite := 1 }
    match array with
    | BodyArray.BODYSYSTEM_POSITION =>
      if s1.m_bUsePBO then
        let newPbo := memcpyList (get2 s1.m_pbo s1.m_currentRead) data
          (4 * s1.m_numBodies)
        let warnEvs : List ExtCall :=
          if obs = 4 * sT * s1.m_numBodies then [] else [ExtCall.warnStderr]
        some ({ s1 with m_pbo := set2 s1.m_pbo s1.m_currentRead newPbo },
          ExtCall.glBufferSubDataCall s1.m_currentRead 0
            (4 * sT * s1.m_numBodies) :: warnEvs)
      else if s1.m_bUseSysMem then
        let newH := memcpyList (get2 s1.m_hPos s1.m_currentRead) data
          (4 * s1.m_numBodies)
        some ({ s1 with m_hPos := set2 s1.m_hPos s1.m_currentRead newH },
          [ExtCall.hostMemcpy (s1.m_numBodies * 4 * sT)])
      else
        let newD := memcpyList (get2 s1.m_dPos s1.m_currentRead) data
          (4 * s1.m_numBodies)
        some ({ s1 with m_dPos := set2 s1.m_dPos s1.m_currentRead newD },
          [ExtCall.cudaMemcpyHostToDevice (s1.m_numBodies * 4 * sT)])
    | BodyArray.BODYSYSTEM_VELOCITY =>
      if s1.m_bUseSysMem then
        some ({ s1 with
            m_hVel := memcpyList s1.m_hVel data (4 * s1.m_numBodies) },
          [ExtCall.hostMemcpy (s1.m_numBodies * 4 * sT)])
      else
        some ({ s1 with
            m_dVel := memcpyList s1.m_dVel data (4 * s1.m_numBodies) },
          [ExtCall.cudaMemcpyHostToDevice (s1.m_numBodies * 4 * sT)])
  else none

/-- The constructor `BodySystemCUDA<T>::BodySystemCUDA(...)`, lines 34-61:
builds the member-initializer-list state (`m_currentRead = 0`,
`m_currentWrite = 1`, `m_bInitialized = false`, null buffers), then runs
`initializeImpl(numBodies)`, `setSoftening(0.00125f)` and
`setDamping(0.995f)`.  `m_damping` is not in the initializer list; its
placeholder value before `setDamping` runs is modelled as `0`. -/
def BodySystemCUDA [Zero α] (uninit : α)
    (numBodies numDevices blockSize : Nat)
    (usePBO useSysMem useP2P : Bool) (deviceId : Nat)
    (props : List DeviceProps) : Option (SysState α × List ExtCall) :=
  let s0 : SysState α := {
    m_numBodies := numBodies, m_numDevices := numDevices,
    m_bInitialized := false, m_bUsePBO := usePBO,
    m_bUseSysMem := useSysMem, m_bUseP2P := useP2P,
    m_currentRead := 0, m_currentWrite := 1,
    m_blockSize := blockSize, m_devID := deviceId, m_damping := 0,
    m_hPos := ([], []), m_hVel := [], m_dPos := ([], []), m_dVel := [],
    m_pbo := ([], []), m_deviceData := [] }
  match initializeImpl uninit props numBodies s0 with
  | none => none
  | some s1 =>
    let p := setSoftening (0.00125 : Rat) s1
    some (setDamping (0.995 : Rat) p.1, p.2)

/-- The destructor `BodySystemCUDA<T>::~BodySystemCUDA()`, lines 63-68:
unconditionally calls `_finalize()` (whose assertion demands
`m_bInitialized`) and then zeroes `m_numBodies`. -/
def destructor (s : SysState α) : Option (SysState α) :=
  (_finalize s).map (fun s2 => { s2 with m_numBodies := 0 })

/-! Helper lemmas shared by the claim theorems. -/

theorem usub32_self_zero : usub32 0 0 = 0 := by decide

theorem partitionAux_zeroBodies (shares : List Nat) :
    (partitionAux 0 0 0 shares).map Slot.numBodies =
      List.replicate shares.length 0 := by
  induction shares with
  | nil => rfl
  | cons s rest ih =>
    simp [partitionAux, usub32_self_zero, ih, List.replicate_succ]

theorem take_of_length_eq (x y : List α) (n : Nat) (h : x.length = n) :
    (x ++ y).take n = x := by
  subst h
  exact List.take_left x y

theorem drop_of_length_le (x : List α) (n : Nat) (h : x.length = n) :
    x.drop n = [] := by
  subst h
  simp

theorem count_flatMap_range (f : Nat -> List ExtCall) (e : ExtCall) (k : Nat)
    (h : ∀ i, (f i).count e = 1) :
    ((List.range k).flatMap f).count e = k := by
  induction k with
  | zero => rfl
  | succ k ih =>
    rw [List.range_succ, List.flatMap_append, List.count_append, ih]
    simp [h]

/-! The claim theorems. -/

/-- C1: the partition is claimed to sum to `bodyCount` exactly for every
positive choice of device weights, but the last-device absorption at line
123 compares `offset < m_numBodies - 1` instead of `offset < m_numBodies`.
Evaluating the code at `bodyCount = 257` with two devices of positive
weights 257 and 1 (257 SMs and 1 SM, both of generation 1): the shares are
256 and 0, device 0 gets 256 bodies, device 1 gets 0, the absorption test
`256 < 256` fails, and only 256 of the 257 bodies are assigned — body 256
is silently dropped. -/
theorem C1_partition_drops_body :
    weight (DeviceProps.mk 257 1) = 257 ∧
    weight (DeviceProps.mk 1 1) = 1 ∧
    sharesOf 257 [DeviceProps.mk 257 1, DeviceProps.mk 1 1] = [256, 0] ∧
    partition 257 (sharesOf 257 [DeviceProps.mk 257 1, DeviceProps.mk 1 1]) =
      [Slot.mk 0 256, Slot.mk 256 0] ∧
    ((partition 257
        (sharesOf 257 [DeviceProps.mk 257 1, DeviceProps.mk 1 1])).map
      Slot.numBodies).sum = 256 := by
  exact ⟨rfl, rfl, by decide, by decide, by decide⟩

/-- C3: every device's weight is `cores * (generation >= 2 ? 4 : 1)`; every
slot except possibly the last is allocated its truncated proportional share
rounded up to a multiple of 256 and capped at the bodies still unassigned;
and in the scenario `bodyCount = 1024`, two devices of weights 4 and 1
(one SM of generation 2 and one SM of generation 1), the shares are 819 and
204, device 0 is assigned all 1024 bodies and device 1 is assigned 0. -/
theorem C3_weighted_allocation :
    (∀ p : DeviceProps,
      weight p = p.multiProcessorCount * (if 2 <= p.major then 4 else 1)) ∧
    (∀ (n off rem u v : Nat) (rest : List Nat),
      partitionAux n off rem (u :: v :: rest) =
        Slot.mk off (min (roundUp256 u) rem) ::
          partitionAux n (off + min (roundUp256 u) rem)
            (rem - min (roundUp256 u) rem) (v :: rest)) ∧
    sharesOf 1024 [DeviceProps.mk 1 2, DeviceProps.mk 1 1] = [819, 204] ∧
    partition 1024 (sharesOf 1024 [DeviceProps.mk 1 2, DeviceProps.mk 1 1]) =
      [Slot.mk 0 1024, Slot.mk 1024 0] := by
  refine ⟨fun p => rfl, ?_, by decide, by decide⟩
  intro n off rem u v rest
  simp [partitionAux]

/-- C9: with no devices the slot table is empty, and with `bodyCount = 0`
every slot of the table is assigned zero bodies; `initializeImpl` still
completes (it fails only on the `assert(!m_bInitialized)` guard), so the
empty configuration is a no-op, not an error. -/
theorem C9_empty_workload :
    (∀ n : Nat, partition n [] = []) ∧
    (∀ shares : List Nat,
      (partition 0 shares).map Slot.numBodies =
        List.replicate shares.length 0) ∧
    (∀ (props : List DeviceProps) (u : Rat) (s : SysState Rat),
      (initializeImpl u props 0 s).isSome = !s.m_bInitialized) := by
  refine ⟨fun n => rfl, fun shares => partitionAux_zeroBodies shares, ?_⟩
  intro props u s
  cases hb : s.m_bInitialized with
  | true => simp [initializeImpl, hb]
  | false =>
    simp only [initializeImpl, hb, Bool.false_eq_true, if_false, Bool.not_false]
    split
    · rfl
    · split
      · rfl
      · rfl

/-- A concrete initialized single-device state in the device-local mode
(`bodyCount = 1`), used to instantiate theorems with hypotheses. -/
def sampleDL : SysState Rat := {
  m_numBodies := 1, m_numDevices := 1, m_bInitialized := true,
  m_bUsePBO := false, m_bUseSysMem := false, m_bUseP2P := false,
  m_currentRead := 0, m_currentWrite := 1, m_blockSize := 256,
  m_devID := 0, m_damping := (0.995 : Rat),
  m_hPos := (List.replicate 4 0, []), m_hVel := List.replicate 4 0,
  m_dPos := (List.replicate 4 0, List.replicate 4 0),
  m_dVel := List.replicate 4 0, m_pbo := ([], []),
  m_deviceData := [Slot.mk 0 1] }

/-- `sampleDL` in the render-shared (PBO) mode. -/
def samplePBO : SysState Rat :=
  { sampleDL with m_bUsePBO := true,
                  m_pbo := (List.replicate 4 0, List.replicate 4 0) }

/-- `sampleDL` before initialization. -/
def sampleUninit : SysState Rat := { sampleDL with m_bInitialized := false }

/-- C2: requesting the render-shared mode (`usePBO`) together with more
than one device is not rejected by the constructor: construction completes
normally.  This refutes the claim that such a configuration fails fast. -/
theorem C2_counterexample :
    (BodySystemCUDA (α := Rat) 0 1024 2 256 true false false 0
      [DeviceProps.mk 16 2, DeviceProps.mk 16 2]).isSome = true := rfl

/-- C2 (amended): the constructor performs no validation of the
render-shared/multi-device combination: for every `deviceCount >= 2` it
completes with `m_bInitialized = true` and the PBO flag still set — it
neither fails construction nor falls back to the device-local mode. -/
theorem C2_no_rejection (n nd bs dev : Nat) (p2p : Bool)
    (props : List DeviceProps) (h : 2 <= nd) :
    ∃ s evs,
      BodySystemCUDA (α := Rat) 0 n nd bs true false p2p dev props =
        some (s, evs) ∧
      s.m_bInitialized = true ∧ s.m_bUsePBO = true ∧
      s.m_bUseSysMem = false := by
  exact ⟨_, _, rfl, rfl, rfl, rfl⟩

/-- C2 (witness): the amended theorem at `deviceCount = 2`. -/
theorem C2_no_rejection_witness :
    2 <= 2 ∧
    (∃ s evs,
      BodySystemCUDA (α := Rat) 0 1024 2 256 true false false 0
          [DeviceProps.mk 16 2, DeviceProps.mk 16 2] =
        some (s, evs) ∧
      s.m_bInitialized = true ∧ s.m_bUsePBO = true ∧
      s.m_bUseSysMem = false) :=
  ⟨by decide,
    C2_no_rejection 1024 2 256 0 false
      [DeviceProps.mk 16 2, DeviceProps.mk 16 2] (by decide)⟩

/-- C4: on every initialized state, one `update` call swaps
`m_currentRead` and `m_currentWrite` exactly once, unconditionally (the
swap at line 345 depends on no flag and no device count), and a second
`update` restores both indices. -/
theorem C4_update_swaps (s : SysState Rat) (dt dt2 : Rat)
    (h : s.m_bInitialized = true) :
    ∃ s1 e1 s2 e2,
      update dt s = some (s1, e1) ∧
      s1.m_currentRead = s.m_currentWrite ∧
      s1.m_currentWrite = s.m_currentRead ∧
      update dt2 s1 = some (s2, e2) ∧
      s2.m_currentRead = s.m_currentRead ∧
      s2.m_currentWrite = s.m_currentWrite := by
  refine ⟨{ s with m_currentRead := s.m_currentWrite, m_currentWrite := s.m_currentRead },
    [ExtCall.integrateCall s.m_currentRead dt s.m_damping s.m_numBodies
      s.m_numDevices s.m_blockSize s.m_bUsePBO],
    { s with m_currentRead := s.m_currentRead, m_currentWrite := s.m_currentWrite },
    [ExtCall.integrateCall s.m_currentWrite dt2 s.m_damping s.m_numBodies
      s.m_numDevices s.m_blockSize s.m_bUsePBO],
    ?_, rfl, rfl, ?_, rfl, rfl⟩
  · unfold update
    rw [if_pos h]
  · unfold update
    dsimp only
    rw [if_pos h]

/-- C4 (witness): the swap theorem at a concrete initialized state. -/
theorem C4_update_swaps_witness :
    sampleDL.m_bInitialized = true ∧
    (∃ s1 e1 s2 e2,
      update 1 sampleDL = some (s1, e1) ∧
      s1.m_currentRead = sampleDL.m_currentWrite ∧
      s1.m_currentWrite = sampleDL.m_currentRead ∧
      update 2 s1 = some (s2, e2) ∧
      s2.m_currentRead = sampleDL.m_currentRead ∧
      s2.m_currentWrite = sampleDL.m_currentWrite) :=
  ⟨rfl, C4_update_swaps sampleDL 1 2 rfl⟩

/-- C5: on every initialized state in each of the three memory modes
(device-local: both flags clear; host-mapped: `m_bUseSysMem`;
render-shared: `m_bUsePBO`; the source never combines the two flags),
`setArray(Position, x)` followed by `getArray(Position)` hands back
exactly `x`, for every `x` of `bodyCount * 4` scalars.  The host staging
buffer has its allocated size `bodyCount * 4` (hypothesis `hh`, the
`memSize` allocation of `initializeImpl`). -/
theorem C5_roundtrip (s : SysState Rat) (sT obs : Nat) (x : List Rat)
    (hinit : s.m_bInitialized = true)
    (hmode : ¬(s.m_bUsePBO = true ∧ s.m_bUseSysMem = true))
    (hx : x.length = 4 * s.m_numBodies)
    (hh : s.m_hPos.1.length = 4 * s.m_numBodies) :
    ∃ s1 e1 r s2 e2,
      setArray sT BodyArray.BODYSYSTEM_POSITION x obs s = some (s1, e1) ∧
      getArray sT BodyArray.BODYSYSTEM_POSITION s1 = some (r, s2, e2) ∧
      r = x := by
  have htx : List.take (4 * s.m_numBodies) x = x := by
    rw [← hx]
    exact List.take_length x
  have hdh : List.drop (4 * s.m_numBodies) s.m_hPos.1 = [] :=
    drop_of_length_le _ _ hh
  cases hp : s.m_bUsePBO with
  | true =>
    cases hs : s.m_bUseSysMem with
    | true => exact absurd ⟨hp, hs⟩ hmode
    | false =>
      simp [setArray, getArray, hinit, hp, hs, memcpyList, get2, set2]
      rw [htx, take_of_length_eq x _ _ hx, hdh, List.append_nil]
  | false =>
    cases hs : s.m_bUseSysMem with
    | true =>
      simp [setArray, getArray, hinit, hp, hs, memcpyList, get2, set2]
      rw [htx, hdh, List.append_nil]
    | false =>
      simp [setArray, getArray, hinit, hp, hs, memcpyList, get2, set2]
      rw [htx, take_of_length_eq x _ _ hx, hdh, List.append_nil]

/-- C5 (witness): the roundtrip theorem at the concrete device-local
state with `bodyCount = 1` and `x = [1, 2, 3, 4]`. -/
theorem C5_roundtrip_witness :
    sampleDL.m_bInitialized = true ∧
    ¬(sampleDL.m_bUsePBO = true ∧ sampleDL.m_bUseSysMem = true) ∧
    ([(1 : Rat), 2, 3, 4]).length = 4 * sampleDL.m_numBodies ∧
    sampleDL.m_hPos.1.length = 4 * sampleDL.m_numBodies ∧
    (∃ s1 e1 r s2 e2,
      setArray 8 BodyArray.BODYSYSTEM_POSITION [(1 : Rat), 2, 3, 4] 32
          sampleDL = some (s1, e1) ∧
      getArray 8 BodyArray.BODYSYSTEM_POSITION s1 = some (r, s2, e2) ∧
      r = [(1 : Rat), 2, 3, 4]) :=
  ⟨rfl, by simp [sampleDL], rfl, rfl,
    C5_roundtrip sampleDL 8 32 [(1 : Rat), 2, 3, 4] rfl
      (by simp [sampleDL]) rfl rfl⟩

/-- C6: on every initialized state, `setArray` first resets
`m_currentRead = 0` and `m_currentWrite = 1`, whatever their prior values
and whichever array is written; for the position array it then issues
exactly one write of `bodyCount * 4 * sizeof(T)` bytes — a host `memcpy`
(host-mapped), a host-to-device `cudaMemcpy` (device-local), or a
`glBufferSubData` into the render buffer at index 0 starting at byte
offset 0 (render-shared); in the render-shared mode a reported buffer
size different from the expected byte count only appends a warning event,
the call still completing normally. -/
theorem C6_setArray_reset_and_write (s : SysState Rat) (sT obs : Nat)
    (d : List Rat) (hinit : s.m_bInitialized = true) :
    (∀ a : BodyArray, ∃ s1 e1,
      setArray sT a d obs s = some (s1, e1) ∧
      s1.m_currentRead = 0 ∧ s1.m_currentWrite = 1) ∧
    (s.m_bUsePBO = false → s.m_bUseSysMem = true →
      ∃ s1, setArray sT BodyArray.BODYSYSTEM_POSITION d obs s =
        some (s1, [ExtCall.hostMemcpy (s.m_numBodies * 4 * sT)])) ∧
    (s.m_bUsePBO = false → s.m_bUseSysMem = false →
      ∃ s1, setArray sT BodyArray.BODYSYSTEM_POSITION d obs s =
        some (s1, [ExtCall.cudaMemcpyHostToDevice (s.m_numBodies * 4 * sT)])) ∧
    (s.m_bUsePBO = true →
      ∃ s1, setArray sT BodyArray.BODYSYSTEM_POSITION d obs s =
        some (s1, ExtCall.glBufferSubDataCall 0 0 (4 * sT * s.m_numBodies) ::
          (if obs = 4 * sT * s.m_numBodies then [] else
            [ExtCall.warnStderr]))) := by
  refine ⟨?_, ?_, ?_, ?_⟩
  · intro a
    cases a with
    | BODYSYSTEM_POSITION =>
      cases hp : s.m_bUsePBO with
      | true => simp [setArray, hinit, hp]
      | false =>
        cases hs : s.m_bUseSysMem with
        | true => simp [setArray, hinit, hp, hs]
        | false => simp [setArray, hinit, hp, hs]
    | BODYSYSTEM_VELOCITY =>
      cases hs : s.m_bUseSysMem with
      | true => simp [setArray, hinit, hs]
      | false => simp [setArray, hinit, hs]
  · intro hp hs
    simp [setArray, hinit, hp, hs]
  · intro hp hs
    simp [setArray, hinit, hp, hs]
  · intro hp
    simp [setArray, hinit, hp]

/-- C6 (witness): the `setArray` theorem at the concrete render-shared
state, with a deliberately mismatched reported buffer size. -/
theorem C6_setArray_reset_and_write_witness :
    samplePBO.m_bInitialized = true ∧
    ((∀ a : BodyArray, ∃ s1 e1,
      setArray 8 a [(1 : Rat), 2, 3, 4] 999 samplePBO = some (s1, e1) ∧
      s1.m_currentRead = 0 ∧ s1.m_currentWrite = 1) ∧
    (samplePBO.m_bUsePBO = false → samplePBO.m_bUseSysMem = true →
      ∃ s1, setArray 8 BodyArray.BODYSYSTEM_POSITION [(1 : Rat), 2, 3, 4]
          999 samplePBO =
        some (s1, [ExtCall.hostMemcpy (samplePBO.m_numBodies * 4 * 8)])) ∧
    (samplePBO.m_bUsePBO = false → samplePBO.m_bUseSysMem = false →
      ∃ s1, setArray 8 BodyArray.BODYSYSTEM_POSITION [(1 : Rat), 2, 3, 4]
          999 samplePBO =
        some (s1,
          [ExtCall.cudaMemcpyHostToDevice (samplePBO.m_numBodies * 4 * 8)])) ∧
    (samplePBO.m_bUsePBO = true →
      ∃ s1, setArray 8 BodyArray.BODYSYSTEM_POSITION [(1 : Rat), 2, 3, 4]
          999 samplePBO =
        some (s1,
          ExtCall.glBufferSubDataCall 0 0 (4 * 8 * samplePBO.m_numBodies) ::
            (if 999 = 4 * 8 * samplePBO.m_numBodies then [] else
              [ExtCall.warnStderr])))) :=
  ⟨rfl, C6_setArray_reset_and_write samplePBO 8 999 [(1 : Rat), 2, 3, 4] rfl⟩

/-- C7: on every initialized state, `getArray(Position)` resolves the
host-visible buffer index to `m_currentRead` exactly when the sysmem
(host-mapped) mode is active — returning that host buffer with no copy —
and to index 0 otherwise; in the device-local and render-shared modes it
copies exactly `bodyCount * 4 * sizeof(T)` bytes from the current read
buffer into the host staging buffer at index 0, and in the render-shared
mode that copy is bracketed by mapping and unmapping the interop resource
with its map flags first set to read-only. -/
theorem C7_getArray_selection (s : SysState Rat) (sT : Nat)
    (hinit : s.m_bInitialized = true) :
    (s.m_bUseSysMem = true →
      getArray sT BodyArray.BODYSYSTEM_POSITION s =
        some (get2 s.m_hPos s.m_currentRead, s, [])) ∧
    (s.m_bUseSysMem = false → s.m_bUsePBO = false →
      ∃ r s2, getArray sT BodyArray.BODYSYSTEM_POSITION s =
        some (r, s2,
          [ExtCall.cudaMemcpyDeviceToHost (s.m_numBodies * 4 * sT)]) ∧
        r = memcpyList (get2 s.m_hPos 0) (get2 s.m_dPos s.m_currentRead)
          (4 * s.m_numBodies) ∧
        s2 = { s with m_hPos := set2 s.m_hPos 0 r }) ∧
    (s.m_bUseSysMem = false → s.m_bUsePBO = true →
      ∃ r s2, getArray sT BodyArray.BODYSYSTEM_POSITION s =
        some (r, s2,
          [ExtCall.setMapFlagsReadOnly s.m_currentRead,
           ExtCall.mapResources s.m_currentRead,
           ExtCall.cudaMemcpyDeviceToHost (s.m_numBodies * 4 * sT),
           ExtCall.unmapResources s.m_currentRead]) ∧
        r = memcpyList (get2 s.m_hPos 0) (get2 s.m_pbo s.m_currentRead)
          (4 * s.m_numBodies) ∧
        s2 = { s with m_hPos := set2 s.m_hPos 0 r }) := by
  refine ⟨?_, ?_, ?_⟩
  · intro hs
    simp [getArray, hinit, hs]
  · intro hs hp
    simp [getArray, hinit, hs, hp]
  · intro hs hp
    simp [getArray, hinit, hs, hp]

/-- C7 (witness): the `getArray` theorem at the concrete render-shared
state. -/
theorem C7_getArray_selection_witness :
    samplePBO.m_bInitialized = true ∧
    ((samplePBO.m_bUseSysMem = true →
      getArray 8 BodyArray.BODYSYSTEM_POSITION samplePBO =
        some (get2 samplePBO.m_hPos samplePBO.m_currentRead, samplePBO,
          [])) ∧
    (samplePBO.m_bUseSysMem = false → samplePBO.m_bUsePBO = false →
      ∃ r s2, getArray 8 BodyArray.BODYSYSTEM_POSITION samplePBO =
        some (r, s2,
          [ExtCall.cudaMemcpyDeviceToHost (samplePBO.m_numBodies * 4 * 8)]) ∧
        r = memcpyList (get2 samplePBO.m_hPos 0)
          (get2 samplePBO.m_dPos samplePBO.m_currentRead)
          (4 * samplePBO.m_numBodies) ∧
        s2 = { samplePBO with m_hPos := set2 samplePBO.m_hPos 0 r }) ∧
    (samplePBO.m_bUseSysMem = false → samplePBO.m_bUsePBO = true →
      ∃ r s2, getArray 8 BodyArray.BODYSYSTEM_POSITION samplePBO =
        some (r, s2,
          [ExtCall.setMapFlagsReadOnly samplePBO.m_currentRead,
           ExtCall.mapResources samplePBO.m_currentRead,
           ExtCall.cudaMemcpyDeviceToHost (samplePBO.m_numBodies * 4 * 8),
           ExtCall.unmapResources samplePBO.m_currentRead]) ∧
        r = memcpyList (get2 samplePBO.m_hPos 0)
          (get2 samplePBO.m_pbo samplePBO.m_currentRead)
          (4 * samplePBO.m_numBodies) ∧
        s2 = { samplePBO with m_hPos := set2 samplePBO.m_hPos 0 r })) :=
  ⟨rfl, C7_getArray_selection samplePBO 8 rfl⟩

/-- C8: the claim lists `setSoftening` and `setDamping` among the
operations guarded by the initialized flag, but neither carries an
assertion (lines 313-333): on a concrete uninitialized state both return
normally, `setDamping` even updating the damping field. -/
theorem C8_counterexample :
    sampleUninit.m_bInitialized = false ∧
    setDamping 1 sampleUninit = { sampleUninit with m_damping := 1 } ∧
    (setSoftening 1 sampleUninit).1 = sampleUninit ∧
    (setSoftening 1 sampleUninit).2 =
      [ExtCall.setSofteningSquaredCall (1 * 1)] :=
  ⟨rfl, rfl, rfl, rfl⟩

/-- C8 (amended): `update`, `setArray` and `getArray` assert
`m_bInitialized` and preserve it; `initializeImpl` asserts the flag is clear
and sets it; `_finalize` asserts the flag is set and clears it — so the
flag is true exactly between `initializeImpl` and `_finalize`; but
`setSoftening` and `setDamping` are unguarded: they complete on every
state, initialized or not. -/
theorem C8_amended_guards (s : SysState Rat) (dt c u : Rat) (sT obs n : Nat)
    (a : BodyArray) (d : List Rat) (props : List DeviceProps) :
    ((update dt s).map (fun p => p.1.m_bInitialized) =
      if s.m_bInitialized = true then some true else none) ∧
    ((setArray sT a d obs s).map (fun p => p.1.m_bInitialized) =
      if s.m_bInitialized = true then some true else none) ∧
    ((getArray sT a s).map (fun p => p.2.1.m_bInitialized) =
      if s.m_bInitialized = true then some true else none) ∧
    ((initializeImpl u props n s).map SysState.m_bInitialized =
      if s.m_bInitialized = true then none else some true) ∧
    ((_finalize s).map SysState.m_bInitialized =
      if s.m_bInitialized = true then some false else none) ∧
    (setDamping c s).m_bInitialized = s.m_bInitialized ∧
    (setSoftening c s).1 = s := by
  cases hb : s.m_bInitialized with
  | true =>
    refine ⟨by simp [update, hb], ?_, ?_, by simp [initializeImpl, hb],
      by simp [_finalize, hb], by simp [setDamping, hb], rfl⟩
    · cases a <;> cases hp : s.m_bUsePBO <;> cases hs : s.m_bUseSysMem <;>
        simp [setArray, hb, hp, hs]
    · cases a <;> cases hp : s.m_bUsePBO <;> cases hs : s.m_bUseSysMem <;>
        simp [getArray, hb, hp, hs]
  | false =>
    refine ⟨by simp [update, hb], by simp [setArray, hb],
      by simp [getArray, hb], ?_, by simp [_finalize, hb],
      by simp [setDamping, hb], rfl⟩
    simp only [initializeImpl, hb, Bool.false_eq_true, if_false]
    split
    · rfl
    · split
      · rfl
      · rfl

/-- The trace `setSoftening` issues for `k` devices counts exactly one
`setSofteningSquared(c * c)` call per device. -/
theorem count_softening_trace (c : Rat) (k : Nat) :
    ((List.range k).flatMap (fun i =>
      (if 1 < k then [ExtCall.cudaSetDevice i] else []) ++
        [ExtCall.setSofteningSquaredCall (c * c)])).count
      (ExtCall.setSofteningSquaredCall (c * c)) = k := by
  refine count_flatMap_range _ _ k ?_
  intro i
  split <;> simp [List.count_append, List.count_cons, List.count_singleton]

/-- C10: the constructor runs the full `initializeImpl`, so right after
construction the system is initialized with `m_currentRead = 0` and
`m_currentWrite = 1`; it installs the defaults `damping = 0.995` and
`softening = 0.00125`, the softening applied squared once per device; and
the destructor runs `_finalize`, whose assertion demands the system still
be initialized, so destruction succeeds exactly on initialized states. -/
theorem C10_ctor_and_dtor (nb nd bs dev : Nat) (pbo sys p2p : Bool)
    (props : List DeviceProps) (u : Rat) :
    (∃ s evs,
      BodySystemCUDA u nb nd bs pbo sys p2p dev props = some (s, evs) ∧
      s.m_bInitialized = true ∧ s.m_currentRead = 0 ∧
      s.m_currentWrite = 1 ∧ s.m_damping = (0.995 : Rat) ∧
      evs.count (ExtCall.setSofteningSquaredCall
        ((0.00125 : Rat) * (0.00125 : Rat))) = nd) ∧
    (∀ t : SysState Rat, (destructor t).isSome = t.m_bInitialized) := by
  refine ⟨?_, ?_⟩
  · cases sys with
    | true =>
      refine ⟨_, _, rfl, rfl, rfl, rfl, rfl, ?_⟩
      exact count_softening_trace 0.00125 nd
    | false =>
      cases pbo with
      | true =>
        refine ⟨_, _, rfl, rfl, rfl, rfl, rfl, ?_⟩
        exact count_softening_trace 0.00125 nd
      | false =>
        refine ⟨_, _, rfl, rfl, rfl, rfl, rfl, ?_⟩
        exact count_softening_trace 0.00125 nd
  · intro t
    cases hb : t.m_bInitialized with
    | true => simp [destructor, _finalize, hb]
    | false => simp [destructor, _finalize, hb]

end NBody
